import Mathlib

/-!
Shallow embedding of the natural-language query fallback translator of
`notebook/enhanced_data_agent.py` (class `EnhancedDataAgent`) and of the
OpenAI wrapper of `notebook/sql agent/gradio_data_agent.py`.

The schema descriptor (`table_schema` in the source) is modelled as an
ordered association list from table name to the ordered list of its column
names; declared column types are never consulted by the translator and are
omitted.  A loaded dataframe contributes only its ordered column list, so
it is modelled as `Option (List String)`.  Python substring containment
(`a in b`) is modelled by an explicit scan over character lists.
-/

namespace DataAgent

/-- Character-list version of "the first list starts the second". -/
def leadsWith : List Char → List Char → Bool
  | [], _ => true
  | _ :: _, [] => false
  | p :: ps, c :: cs => p == c && leadsWith ps cs

/-- Character-list version of "the first list occurs inside the second". -/
def hasSub (pat : List Char) : List Char → Bool
  | [] => leadsWith pat []
  | c :: cs => leadsWith pat (c :: cs) || hasSub pat cs

/-- Python `pat in s` substring containment on strings. -/
def strContains (s pat : String) : Bool :=
  hasSub pat.toList s.toList

/-- Python `s.lower()` (ASCII, which covers every string the source builds). -/
def strLower (s : String) : String :=
  ⟨s.data.map Char.toLower⟩

/-- The fixed fallback vocabulary of `_extract_column`
    (`columns = ['name', 'age', 'amount', 'city', 'email', 'date']`). -/
def defaultColumns : List String :=
  ["name", "age", "amount", "city", "email", "date"]

/-- Loop `for col in cols: if col.lower() in query.lower(): return col`
    from `_extract_column` (the query argument is already lower-cased). -/
def findCol (ql : String) : List String → Option String
  | [] => none
  | c :: cs => if strContains ql (strLower c) then some c else findCol ql cs

/-- Loop `for col in columns: if col in query.lower(): return col` of the
    default-vocabulary pass of `_extract_column` (candidates not lowered). -/
def findPlainCol (ql : String) : List String → Option String
  | [] => none
  | c :: cs => if strContains ql c then some c else findPlainCol ql cs

/-- `EnhancedDataAgent._extract_column` (enhanced_data_agent.py lines 323-342):
    scan schema columns, then dataframe columns, then the fixed vocabulary,
    returning the first containment match and `"id"` otherwise. -/
def extractColumn (schema : List (String × List String))
    (df : Option (List String)) (query : String) : String :=
  let ql := strLower query
  match findCol ql (schema.map Prod.snd).flatten with
  | some c => c
  | none =>
    match df with
    | some cols =>
      match findCol ql cols with
      | some c => c
      | none => (findPlainCol ql defaultColumns).getD "id"
    | none => (findPlainCol ql defaultColumns).getD "id"

/-- SQL template of the `count_by_group` pattern. -/
def countByGroupSql (table column : String) : String :=
  "SELECT " ++ column ++ ", COUNT(*) as count FROM " ++ table ++
    " GROUP BY " ++ column ++ " ORDER BY count DESC;"

/-- SQL template of the `total_sum` pattern. -/
def totalSumSql (table column : String) : String :=
  "SELECT SUM(" ++ column ++ ") as total FROM " ++ table ++ ";"

/-- SQL template of the `average` pattern. -/
def averageSql (table column : String) : String :=
  "SELECT AVG(" ++ column ++ ") as average FROM " ++ table ++ ";"

/-- SQL template of the `filter` pattern; the `value` placeholder is always
    instantiated with the literal `value` by the source. -/
def filterSql (table column : String) : String :=
  "SELECT * FROM " ++ table ++ " WHERE " ++ column ++ " = \x27value\x27;"

/-- The `patterns` dictionary of `fallback_sql_generation`, in its Python
    insertion order; each entry pairs the keyword group with its template
    applied to (table, column). -/
def sqlPatterns : List (List String × (String → String → String)) :=
  [ (["count", "group", "by"], countByGroupSql),
    (["total", "sum"], totalSumSql),
    (["average", "avg", "mean"], averageSql),
    (["where", "filter"], filterSql) ]

/-- Python `any(keyword in query_lower for keyword in keywords)`. -/
def anyKeyword (ql : String) (kws : List String) : Bool :=
  kws.any (fun k => strContains ql k)

/-- The loop `for pattern_name, pattern_data in patterns.items(): if any(...)`
    of `fallback_sql_generation`: the first pattern whose keyword group hits. -/
def findTemplate {α : Type} (ql : String) :
    List (List String × α) → Option α
  | [] => none
  | (kws, tmpl) :: rest =>
    if anyKeyword ql kws then some tmpl else findTemplate ql rest

/-- `list(self.table_schema.keys())[0] if self.table_schema else 'customers'`. -/
def firstTable (schema : List (String × List String)) : String :=
  match schema with
  | [] => "customers"
  | (t, _) :: _ => t

/-- `EnhancedDataAgent.fallback_sql_generation` (lines 160-198): lower-case
    the question, take the first matching pattern's template instantiated
    with the first known table and the inferred column, and otherwise the
    generic `SELECT * ... LIMIT 10;` default. -/
def fallbackSqlGeneration (schema : List (String × List String))
    (df : Option (List String)) (query : String) : String :=
  let ql := strLower query
  match findTemplate ql sqlPatterns with
  | some tmpl => tmpl (firstTable schema) (extractColumn schema df ql)
  | none => "SELECT * FROM " ++ firstTable schema ++ " LIMIT 10;"

/-- `EnhancedDataAgent.fallback_pandas_generation` (lines 200-217): the
    source tests `group`, then `filter`, then `average`/`mean`, each with
    an early return, and falls through to `df.head(10)`. -/
def fallbackPandasGeneration (schema : List (String × List String))
    (df : Option (List String)) (query : String) : String :=
  let ql := strLower query
  if strContains ql "group" then
    "df.groupby(\x27" ++ extractColumn schema df ql ++
      "\x27).size().sort_values(ascending=False)"
  else if strContains ql "filter" then
    "df[df[\x27" ++ extractColumn schema df ql ++ "\x27].notna()]"
  else if ["average", "mean"].any (fun w => strContains ql w) then
    "df[\x27" ++ extractColumn schema df ql ++ "\x27].mean()"
  else
    "df.head(10)"

/-- If `p` starts `s`, return the remainder of `s` after `p`. -/
def dropAfter : List Char → List Char → Option (List Char)
  | [], s => some s
  | _ :: _, [] => none
  | p :: ps, c :: cs => if p == c then dropAfter ps cs else none

/-- Python `re.sub(pat + "\n?", "", s)` for a literal `pat`: delete every
    leftmost occurrence of `pat`, greedily taking one following newline with
    it.  Fuel bounds the number of steps; each step consumes at least one
    input character, so the input length suffices. -/
def reSubDel (pat : List Char) : Nat → List Char → List Char
  | 0, s => s
  | _ + 1, [] => []
  | fuel + 1, c :: cs =>
    match dropAfter pat (c :: cs) with
    | some ('\n' :: rest) => reSubDel pat fuel rest
    | some rest => reSubDel pat fuel rest
    | none => c :: reSubDel pat fuel cs

/-- String wrapper for `reSubDel`. -/
def reSubStr (pat s : String) : String :=
  ⟨reSubDel pat.data (s.data.length + 1) s.data⟩

/-- Python `s.replace(pat, "")`: delete every leftmost occurrence of `pat`. -/
def delAll (pat : List Char) : Nat → List Char → List Char
  | 0, s => s
  | _ + 1, [] => []
  | fuel + 1, c :: cs =>
    match dropAfter pat (c :: cs) with
    | some rest => delAll pat fuel rest
    | none => c :: delAll pat fuel cs

/-- String wrapper for `delAll`. -/
def delAllStr (pat s : String) : String :=
  ⟨delAll pat.data (s.data.length + 1) s.data⟩

/-- Characters stripped by Python `str.strip()`. -/
def pyWhitespace (c : Char) : Bool :=
  c == ' ' || c == '\t' || c == '\n' || c == '\r' || c == '\x0c' || c == '\x0b'

/-- Python `s.strip()`. -/
def stripStr (s : String) : String :=
  ⟨((s.data.dropWhile pyWhitespace).reverse.dropWhile pyWhitespace).reverse⟩

/-- Response cleanup of `openai_to_sql` (enhanced_data_agent.py lines
    104-107): `strip`, then delete markdown fences. -/
def cleanSqlResponse (content : String) : String :=
  reSubStr "```" (reSubStr "```sql" (stripStr content))

/-- Response cleanup of `openai_to_pandas` (lines 149-152). -/
def cleanPandasResponse (content : String) : String :=
  reSubStr "```" (reSubStr "```python" (stripStr content))

/-- Outcome of one chat-completion call of the (excluded) LLM collaborator:
    `none` when no client is configured, `some (Except.ok c)` a successful
    completion with content `c`, `some (Except.error e)` a provider error. -/
def LlmOutcome : Type :=
  Option (Except String String)

/-- `EnhancedDataAgent.openai_to_sql` (enhanced_data_agent.py lines 72-113):
    without a client, fall back; with a completion, clean it up; on a
    provider exception, report and return the fallback output. -/
def openaiToSql (schema : List (String × List String)) (df : Option (List String))
    (client : LlmOutcome) (query : String) : String :=
  match client with
  | none => fallbackSqlGeneration schema df query
  | some (Except.ok content) => cleanSqlResponse content
  | some (Except.error _) => fallbackSqlGeneration schema df query

/-- `EnhancedDataAgent.openai_to_pandas` (lines 115-158), same shape. -/
def openaiToPandas (schema : List (String × List String)) (df : Option (List String))
    (client : LlmOutcome) (query : String) : String :=
  match client with
  | none => fallbackPandasGeneration schema df query
  | some (Except.ok content) => cleanPandasResponse content
  | some (Except.error _) => fallbackPandasGeneration schema df query

/-- Response cleanup of the gradio agent (gradio_data_agent.py line 154):
    `.replace("```sql", "").replace("```", "").strip()` after a strip. -/
def cleanGradioSql (content : String) : String :=
  stripStr (delAllStr "```" (delAllStr "```sql" (stripStr content)))

/-- `EnhancedDataAgent.generate_sql_with_openai` of gradio_data_agent.py
    (lines 116-158): raises `ValueError` without a client and re-raises a
    provider failure wrapped as `OpenAI API error: ...`; there is no
    fallback path in this app. -/
def generateSqlWithOpenai (client : LlmOutcome) (query : String) :
    Except String String :=
  match client with
  | none => Except.error "OpenAI client not initialized. Please provide API key."
  | some (Except.ok content) => Except.ok (cleanGradioSql content)
  | some (Except.error e) => Except.error ("OpenAI API error: " ++ e)

/-- `list(self.table_schema.keys())[0] if self.table_schema else 'customers'`
    with the list indexing made explicit as a fallible operation: Python
    `[0]` raises `IndexError` on an empty list. -/
def firstTableE (schema : List (String × List String)) : Except String String :=
  if schema.isEmpty then Except.ok "customers"
  else
    match schema.head? with
    | some tc => Except.ok tc.1
    | none => Except.error "IndexError: list index out of range"

/-- `fallback_sql_generation` under exception semantics: every fallible
    operation of the body (only the table-list indexing) is explicit. -/
def fallbackSqlGenerationE (schema : List (String × List String))
    (df : Option (List String)) (query : String) : Except String String :=
  let ql := strLower query
  match findTemplate ql sqlPatterns with
  | some tmpl =>
    match firstTableE schema with
    | Except.ok t => Except.ok (tmpl t (extractColumn schema df ql))
    | Except.error e => Except.error e
  | none =>
    match firstTableE schema with
    | Except.ok t => Except.ok ("SELECT * FROM " ++ t ++ " LIMIT 10;")
    | Except.error e => Except.error e

/-- `fallback_pandas_generation` under exception semantics: its body
    contains no fallible operation, so every branch returns normally. -/
def fallbackPandasGenerationE (schema : List (String × List String))
    (df : Option (List String)) (query : String) : Except String String :=
  let ql := strLower query
  if strContains ql "group" then
    Except.ok ("df.groupby(\x27" ++ extractColumn schema df ql ++
      "\x27).size().sort_values(ascending=False)")
  else if strContains ql "filter" then
    Except.ok ("df[df[\x27" ++ extractColumn schema df ql ++ "\x27].notna()]")
  else if ["average", "mean"].any (fun w => strContains ql w) then
    Except.ok ("df[\x27" ++ extractColumn schema df ql ++ "\x27].mean()")
  else
    Except.ok "df.head(10)"

/-- `EnhancedDataAgent.execute_sql` (lines 244-252): the database engine is
    the excluded execution collaborator, modelled as a function from SQL
    text to a result rendering or an error; its failure is re-raised
    wrapped as `SQL execution error: ...`. -/
def executeSql (conn : Option (String → Except String String)) (sql : String) :
    Except String String :=
  match conn with
  | none => Except.error "No database connection available"
  | some run =>
    match run sql with
    | Except.ok r => Except.ok r
    | Except.error e => Except.error ("SQL execution error: " ++ e)

/-- The per-request result dictionary built by `process_query`. -/
structure QueryResult where
  query : String
  generatedCode : String
  results : String
  success : Bool
  timestamp : String
deriving BEq, DecidableEq, Repr

/-- The SQL branch of `EnhancedDataAgent.process_query` (lines 267-316):
    translate, then execute when a connection exists; the surrounding
    `try/except` turns an execution failure into a `success: False` record
    whose `results` carry the error text. -/
def processQuerySql (schema : List (String × List String))
    (df : Option (List String)) (client : LlmOutcome)
    (conn : Option (String → Except String String)) (ts : String)
    (query : String) : QueryResult :=
  let code := openaiToSql schema df client query
  match conn with
  | some run =>
    match executeSql (some run) code with
    | Except.ok res => ⟨query, code, res, true, ts⟩
    | Except.error e => ⟨query, "", "Error: " ++ e, false, ts⟩
  | none => ⟨query, code, "No database connected - code generated only", true, ts⟩

/-- The history append of `main` (enhanced_data_agent.py lines 497-501):
    `if result not in st.session_state.query_history: ....append(result)`. -/
def appendHistory (hist : List QueryResult) (r : QueryResult) : List QueryResult :=
  if hist.contains r then hist else hist ++ [r]

/-- The history display of `main` (line 505):
    `reversed(st.session_state.query_history[-5:])`. -/
def displayHistory (hist : List QueryResult) : List QueryResult :=
  (hist.drop (hist.length - 5)).reverse

/-- All keywords appearing in some group of `fallback_sql_generation`. -/
def sqlKeywords : List String :=
  ["count", "group", "by", "total", "sum", "average", "avg", "mean",
    "where", "filter"]

/-- Spec-side restatement of the SQL matching policy (spec §4.1): test the
    four keyword groups as nested conditionals in the stated priority
    order, first group wins, safe default otherwise.  To be compared with
    `fallbackSqlGeneration`, whose source iterates a pattern dictionary. -/
def sqlDispatchSpec (schema : List (String × List String))
    (df : Option (List String)) (query : String) : String :=
  let ql := strLower query
  let t := firstTable schema
  let c := extractColumn schema df ql
  if anyKeyword ql ["count", "group", "by"] then countByGroupSql t c
  else if anyKeyword ql ["total", "sum"] then totalSumSql t c
  else if anyKeyword ql ["average", "avg", "mean"] then averageSql t c
  else if anyKeyword ql ["where", "filter"] then filterSql t c
  else "SELECT * FROM " ++ t ++ " LIMIT 10;"

/-- TABULAR group-by template as a named template. -/
def pandasGroupTemplate (column : String) : String :=
  "df.groupby(\x27" ++ column ++ "\x27).size().sort_values(ascending=False)"

/-- TABULAR not-null filter template as a named template. -/
def pandasFilterTemplate (column : String) : String :=
  "df[df[\x27" ++ column ++ "\x27].notna()]"

/-- TABULAR average template as a named template. -/
def pandasMeanTemplate (column : String) : String :=
  "df[\x27" ++ column ++ "\x27].mean()"

/-- The keyword groups the TABULAR generator actually recognises, in the
    order its conditionals test them. -/
def tabularPatterns : List (List String × (String → String)) :=
  [ (["group"], pandasGroupTemplate),
    (["filter"], pandasFilterTemplate),
    (["average", "mean"], pandasMeanTemplate) ]

/-- Priority-dispatch restatement of the TABULAR generator over its actual
    keyword groups, for comparison with `fallbackPandasGeneration`. -/
def tabularDispatchSpec (schema : List (String × List String))
    (df : Option (List String)) (query : String) : String :=
  let ql := strLower query
  match findTemplate ql tabularPatterns with
  | some tmpl => tmpl (extractColumn schema df ql)
  | none => "df.head(10)"

/-- Spec-side restatement of column inference (spec §4.2): one scan over
    schema columns, then dataframe columns, then the fixed vocabulary,
    returning the first candidate contained in the lower-cased question and
    `"id"` when none is.  To be compared with `extractColumn`. -/
def extractColumnSpec (schema : List (String × List String))
    (df : Option (List String)) (query : String) : String :=
  let ql := strLower query
  (((schema.map Prod.snd).flatten ++ df.getD [] ++ defaultColumns).find?
      (fun c => strContains ql (strLower c))).getD "id"

/-- Six pairwise distinct translation records, used to exercise the
    history append. -/
def sampleRecords : List QueryResult :=
  [ ⟨"q1", "c1", "r", true, "t1"⟩, ⟨"q2", "c2", "r", true, "t2"⟩,
    ⟨"q3", "c3", "r", true, "t3"⟩, ⟨"q4", "c4", "r", true, "t4"⟩,
    ⟨"q5", "c5", "r", true, "t5"⟩, ⟨"q6", "c6", "r", true, "t6"⟩ ]

/-- The scan loop of `findCol` is `List.find?` with the containment test. -/
theorem findCol_eq_find? (ql : String) (l : List String) :
    findCol ql l = l.find? fun c => strContains ql (strLower c) := by
  induction l with
  | nil => rfl
  | cons c cs ih =>
    by_cases hb : strContains ql (strLower c) = true
    · simp [findCol, List.find?, hb]
    · simp only [Bool.not_eq_true] at hb
      simp [findCol, List.find?, hb, ih]

/-- On candidates untouched by lower-casing, the plain scan of the default
    vocabulary agrees with the lowered scan. -/
theorem findPlainCol_eq_find? (ql : String) (l : List String)
    (h : ∀ c ∈ l, strLower c = c) :
    findPlainCol ql l = l.find? fun c => strContains ql (strLower c) := by
  induction l with
  | nil => rfl
  | cons c cs ih =>
    have hc : strLower c = c := h c (by simp)
    have ih2 := ih fun x hx => h x (by simp [hx])
    by_cases hb : strContains ql c = true
    · simp [findPlainCol, List.find?, hc, hb]
    · simp only [Bool.not_eq_true] at hb
      simp [findPlainCol, List.find?, hc, hb, ih2]

/-- Specialisation of `findPlainCol_eq_find?` to the fixed vocabulary. -/
theorem findPlainCol_defaults (ql : String) :
    findPlainCol ql defaultColumns
      = defaultColumns.find? fun c => strContains ql (strLower c) :=
  findPlainCol_eq_find? ql defaultColumns (by decide)

/-- C1: fallback SQL generation lower-cases the question and tests the four
    keyword groups by substring containment in the fixed priority order
    count/group/by, total/sum, average/avg/mean, where/filter; the first
    group with a matching keyword alone determines the template, and no
    combination of intents is produced. -/
theorem claim_C1_sql_priority_order (schema : List (String × List String))
    (df : Option (List String)) (q : String) :
    fallbackSqlGeneration schema df q = sqlDispatchSpec schema df q := by
  simp only [fallbackSqlGeneration, sqlDispatchSpec, sqlPatterns, findTemplate]
  split_ifs <;> rfl

/-- C2 counterexample: for TABULAR, a question containing `total` and no
    higher-priority keyword yields the head default, not a sum template
    (none exists), and `filter` takes precedence over `average`. -/
theorem claim_C2_counterexample :
    fallbackPandasGeneration [] none "total sales" = "df.head(10)"
    ∧ fallbackPandasGeneration [] (some ["age"]) "filter the average age"
        = "df[df[\x27age\x27].notna()]"
    ∧ fallbackPandasGeneration [] (some ["age"]) "filter the average age"
        ≠ pandasMeanTemplate "age" := by
  refine ⟨by decide, by decide, by decide⟩

/-- C2 amended: the TABULAR generator tests its own keyword groups in the
    order group, filter, average/mean — there is no total/sum group, and
    filter takes precedence over average — with `df.head(10)` as default. -/
theorem claim_C2_tabular_actual_order (schema : List (String × List String))
    (df : Option (List String)) (q : String) :
    fallbackPandasGeneration schema df q = tabularDispatchSpec schema df q := by
  simp only [fallbackPandasGeneration, tabularDispatchSpec, tabularPatterns,
    findTemplate, anyKeyword, List.any_cons, List.any_nil, Bool.or_false,
    pandasGroupTemplate, pandasFilterTemplate, pandasMeanTemplate]
  split_ifs <;> rfl

/-- C3: column inference returns the first column of the schema scan, then
    the dataframe scan, then the fixed vocabulary, that is contained in the
    lower-cased question, and `"id"` otherwise; first containment match
    wins with no scoring. -/
theorem claim_C3_extract_column_first_match (schema : List (String × List String))
    (df : Option (List String)) (q : String) :
    extractColumn schema df q = extractColumnSpec schema df q := by
  simp only [extractColumn, extractColumnSpec, findCol_eq_find?,
    findPlainCol_defaults, List.find?_append]
  cases hs : (schema.map Prod.snd).flatten.find?
      fun c => strContains (strLower q) (strLower c) with
  | some c => simp [Option.or]
  | none =>
    cases df with
    | none => simp [Option.or]
    | some cols =>
      cases hc : cols.find? fun c => strContains (strLower q) (strLower c) with
      | some c => simp [Option.or, hc]
      | none => simp [Option.or, hc]

/-- C4: when no keyword of any group occurs in the lower-cased question and
    the schema descriptor is empty, the SQL fallback returns exactly
    `SELECT * FROM customers LIMIT 10;` and the TABULAR fallback returns
    exactly `df.head(10)`. -/
theorem claim_C4_safe_defaults (df : Option (List String)) (q : String)
    (h : anyKeyword (strLower q) sqlKeywords = false) :
    fallbackSqlGeneration [] df q = "SELECT * FROM customers LIMIT 10;"
    ∧ fallbackPandasGeneration [] df q = "df.head(10)" := by
  simp only [anyKeyword, sqlKeywords, List.any_cons, List.any_nil,
    Bool.or_eq_false_iff] at h
  obtain ⟨hcount, hgroup, hby, htotal, hsum, havge, havg, hmean, hwhere,
    hfilter, -⟩ := h
  constructor
  · simp [fallbackSqlGeneration, findTemplate, sqlPatterns, anyKeyword,
      firstTable, hcount, hgroup, hby, htotal, hsum, havge, havg, hmean,
      hwhere, hfilter]
  · simp [fallbackPandasGeneration, hgroup, hfilter, havge, hmean]

/-- C4 witness: the unmatched question `gibberish xyz` with an empty schema
    produces both safe defaults. -/
theorem claim_C4_safe_defaults_witness :
    anyKeyword (strLower "gibberish xyz") sqlKeywords = false
    ∧ fallbackSqlGeneration [] none "gibberish xyz"
        = "SELECT * FROM customers LIMIT 10;"
    ∧ fallbackPandasGeneration [] none "gibberish xyz" = "df.head(10)" :=
  ⟨by decide, (claim_C4_safe_defaults none "gibberish xyz" (by decide)).1,
    (claim_C4_safe_defaults none "gibberish xyz" (by decide)).2⟩

/-- C5 counterexample: `filter average age` contains `average` and the
    known column `age`, yet the TABULAR output is the not-null filter, not
    the average template. -/
theorem claim_C5_counterexample :
    fallbackPandasGeneration [] (some ["age", "salary"]) "filter average age"
        = "df[df[\x27age\x27].notna()]"
    ∧ fallbackPandasGeneration [] (some ["age", "salary"]) "filter average age"
        ≠ pandasMeanTemplate "age" := by
  refine ⟨by decide, by decide⟩

/-- C5 amended: for questions containing `average` or `mean` and containing
    neither `group` nor `filter`, the TABULAR output is the average
    template instantiated with the inferred column; in particular
    `average age` over columns [age, salary] yields `df['age'].mean()`. -/
theorem claim_C5_average_template (schema : List (String × List String))
    (df : Option (List String)) (q : String)
    (h1 : strContains (strLower q) "average" = true
      ∨ strContains (strLower q) "mean" = true)
    (h2 : strContains (strLower q) "group" = false)
    (h3 : strContains (strLower q) "filter" = false) :
    fallbackPandasGeneration schema df q
      = pandasMeanTemplate (extractColumn schema df (strLower q)) := by
  simp only [fallbackPandasGeneration, pandasMeanTemplate]
  rcases h1 with h | h <;> simp [h, h2, h3]

/-- C5 witness: the spec's own example instance. -/
theorem claim_C5_average_template_witness :
    strContains (strLower "average age") "average" = true
    ∧ fallbackPandasGeneration [] (some ["age", "salary"]) "average age"
        = "df[\x27age\x27].mean()" :=
  ⟨by decide,
    (claim_C5_average_template [] (some ["age", "salary"]) "average age"
      (Or.inl (by decide)) (by decide) (by decide)).trans (by decide)⟩

/-- C6: every question containing `group` and `by` selects the
    count-by-group SQL template instantiated with the inferred column and
    the first known table; the spec's example question yields exactly its
    stated SQL. -/
theorem claim_C6_count_by_group (schema : List (String × List String))
    (df : Option (List String)) (q : String)
    (hg : strContains (strLower q) "group" = true)
    (hb : strContains (strLower q) "by" = true) :
    fallbackSqlGeneration schema df q
        = countByGroupSql (firstTable schema) (extractColumn schema df (strLower q))
    ∧ fallbackSqlGeneration [("customers", ["id", "name", "city"])] none
          "count customers by city"
        = "SELECT city, COUNT(*) as count FROM customers GROUP BY city ORDER BY count DESC;" := by
  constructor
  · simp [fallbackSqlGeneration, findTemplate, sqlPatterns, anyKeyword, hg]
  · decide

/-- C6 witness: a question containing both `group` and `by`, over the
    example schema, instantiated through the theorem. -/
theorem claim_C6_count_by_group_witness :
    strContains (strLower "count employees group by city") "group" = true
    ∧ strContains (strLower "count employees group by city") "by" = true
    ∧ fallbackSqlGeneration [("customers", ["id", "name", "city"])] none
          "count employees group by city"
        = "SELECT city, COUNT(*) as count FROM customers GROUP BY city ORDER BY count DESC;" :=
  ⟨by decide, by decide,
    ((claim_C6_count_by_group [("customers", ["id", "name", "city"])] none
        "count employees group by city" (by decide) (by decide)).1).trans
      (by decide)⟩

/-- C7: both fallback generators are total — under exception semantics they
    return `Except.ok` of the generated string on every input — and when a
    request reports failure, the failure comes from the execution
    collaborator on the generated code and its message is surfaced as an
    execution error distinct from translation. -/
theorem claim_C7_translation_total (schema : List (String × List String))
    (df : Option (List String)) (conn : Option (String → Except String String))
    (ts q : String) :
    fallbackSqlGenerationE schema df q
        = Except.ok (fallbackSqlGeneration schema df q)
    ∧ fallbackPandasGenerationE schema df q
        = Except.ok (fallbackPandasGeneration schema df q)
    ∧ ((processQuerySql schema df none conn ts q).success = false →
        ∃ run e, conn = some run
          ∧ run (fallbackSqlGeneration schema df q) = Except.error e
          ∧ (processQuerySql schema df none conn ts q).results
              = "Error: SQL execution error: " ++ e) := by
  refine ⟨?_, ?_, ?_⟩
  · cases hfp : findTemplate (strLower q) sqlPatterns <;>
      cases schema <;>
        simp [fallbackSqlGenerationE, fallbackSqlGeneration, firstTableE,
          firstTable, hfp, List.isEmpty]
  · simp only [fallbackPandasGenerationE, fallbackPandasGeneration]
    split_ifs <;> rfl
  · intro hs
    cases conn with
    | none => simp [processQuerySql, openaiToSql] at hs
    | some run =>
      cases hr : run (fallbackSqlGeneration schema df q) with
      | ok r =>
        exfalso
        simp [processQuerySql, openaiToSql, executeSql, hr] at hs
      | error e =>
        refine ⟨run, e, rfl, hr, ?_⟩
        simp only [processQuerySql, openaiToSql, executeSql, hr]
        rw [← String.append_assoc]
        congr 1

/-- C7 witness: with no client and a failing engine, the failure is
    surfaced as an execution error wrapping the engine's message. -/
theorem claim_C7_translation_total_witness :
    fallbackSqlGenerationE [] none "hello"
        = Except.ok (fallbackSqlGeneration [] none "hello")
    ∧ (processQuerySql [] none none
          (some fun _ => Except.error "boom") "ts0" "hello").results
        = "Error: SQL execution error: boom" := by
  have h := claim_C7_translation_total [] none
    (some fun _ => Except.error "boom") "ts0" "hello"
  obtain ⟨run, e, hc, hr, hres⟩ := h.2.2 rfl
  refine ⟨h.1, ?_⟩
  injection hc with hc2
  rw [← hc2] at hr
  injection hr with hr2
  rw [← hr2] at hres
  exact hres

/-- C8 counterexample: in the gradio app, a provider error from the LLM
    call is re-raised wrapped as `OpenAI API error: ...` — the result is
    not the fallback translator's output. -/
theorem claim_C8_counterexample :
    generateSqlWithOpenai (some (Except.error "network timeout"))
        "count customers by city"
      = Except.error "OpenAI API error: network timeout"
    ∧ generateSqlWithOpenai (some (Except.error "network timeout"))
        "count customers by city"
      ≠ Except.ok (fallbackSqlGeneration [] none "count customers by city") :=
  ⟨rfl, fun h => Except.noConfusion h⟩

/-- C8 amended: on a provider error the streamlit app's core substitutes
    the fallback translator's output for both targets, while the gradio
    app's core re-raises the wrapped provider error and has no fallback
    path. -/
theorem claim_C8_provider_error_recovery (schema : List (String × List String))
    (df : Option (List String)) (q e : String) :
    openaiToSql schema df (some (Except.error e)) q
        = fallbackSqlGeneration schema df q
    ∧ openaiToPandas schema df (some (Except.error e)) q
        = fallbackPandasGeneration schema df q
    ∧ generateSqlWithOpenai (some (Except.error e)) q
        = Except.error ("OpenAI API error: " ++ e) :=
  ⟨rfl, rfl, rfl⟩

/-- C9 counterexample: after six distinct appends the stored history holds
    six records — the in-memory list is not capped at 5. -/
theorem claim_C9_counterexample :
    (List.foldl appendHistory [] sampleRecords).length = 6
    ∧ ¬((List.foldl appendHistory [] sampleRecords).length ≤ 5) := by
  refine ⟨by decide, by decide⟩

/-- C9 amended: only the displayed slice of the history is capped: after
    any append it shows at most 5 records, and those are a suffix — the
    most recently appended records — of the stored history. -/
theorem claim_C9_display_bounded (hist : List QueryResult) (r : QueryResult) :
    (displayHistory (appendHistory hist r)).length ≤ 5
    ∧ appendHistory hist r
        = (appendHistory hist r).take ((appendHistory hist r).length - 5)
          ++ (displayHistory (appendHistory hist r)).reverse := by
  constructor
  · simp only [displayHistory, List.length_reverse, List.length_drop]
    omega
  · simp only [displayHistory, List.reverse_reverse]
    exact (List.take_append_drop _ _).symm

/-- C10: because matching is bare substring containment and one keyword of
    a group suffices, any question whose lower-cased text contains the
    two-letter sequence `by` — even inside a longer word — selects the
    count-by-group SQL template. -/
theorem claim_C10_bare_by_triggers_count (schema : List (String × List String))
    (df : Option (List String)) (q : String)
    (hb : strContains (strLower q) "by" = true) :
    fallbackSqlGeneration schema df q
      = countByGroupSql (firstTable schema) (extractColumn schema df (strLower q)) := by
  simp [fallbackSqlGeneration, findTemplate, sqlPatterns, anyKeyword, hb]

/-- C10 witness: `show baby photos` contains neither `count` nor `group`,
    yet its `by` inside `baby` selects the count-by-group template. -/
theorem claim_C10_bare_by_triggers_count_witness :
    strContains (strLower "show baby photos") "count" = false
    ∧ strContains (strLower "show baby photos") "group" = false
    ∧ fallbackSqlGeneration [] none "show baby photos"
        = "SELECT id, COUNT(*) as count FROM customers GROUP BY id ORDER BY count DESC;" :=
  ⟨by decide, by decide,
    (claim_C10_bare_by_triggers_count [] none "show baby photos"
        (by decide)).trans (by decide)⟩

end DataAgent
